import Mathlib

/-!
Shallow embedding of the telemetry acquisition and lap-segmentation core of
`test-listener.py` (AC/ACC telemetry dashboard).

Modelling conventions:
* UDP datagrams are `List Nat` of byte values; `struct.unpack('<f', ...)` and
  `struct.unpack('<i', ...)` read exactly four bytes, so they succeed exactly
  when the slice `data[o:o+4]` has four bytes, i.e. `o + 4 ≤ data.length`.
* 32-bit float fields are carried as their little-endian 32-bit words (bit
  patterns, `Nat < 2^32`): the program never computes with the float values it
  decodes, it only stores and forwards them, and the float `0.0` has word `0`.
* Python `int`s are `Int`; exceptions become `Option`.
* `time.time()` and `random.randint` are nondeterministic inputs; they are
  passed to the functions that read them as explicit parameters
  (`now_ms`, `rand1`, `rand2`).
-/

namespace ACCTelemetry

/-- Four-byte slice `data[off : off+4]` of a datagram (possibly shorter than
four bytes at the end of the datagram, as with Python slicing). -/
def bytesAt (data : List Nat) (off : Nat) : List Nat :=
  (data.drop off).take 4

/-- Little-endian byte-list to word. On a four-byte slice this is the 32-bit
word `b0 + 256*b1 + 256^2*b2 + 256^3*b3`. -/
def le32 (bs : List Nat) : Nat :=
  bs.foldr (fun b acc => b + 256 * acc) 0

/-- `struct.unpack` of a 32-bit word at `off`: succeeds exactly when the slice
has four bytes, otherwise the source raises `struct.error` (caught by the
caller). -/
def word32At (data : List Nat) (off : Nat) : Option Nat :=
  if off + 4 ≤ data.length then some (le32 (bytesAt data off)) else none

/-- Signed reinterpretation of a 32-bit word (`struct.unpack('<i', ...)`). -/
def toInt32 (w : Nat) : Int :=
  if w < 2147483648 then (w : Int) else (w : Int) - 4294967296

/-- Simulated lap state of `ACUDPReader` (`sim_lap_start_ms`,
`sim_target_lap_ms`, `sim_lap_count`, `sim_last_lap_ms`). -/
structure SimState where
  sim_lap_start_ms : Option Int
  sim_target_lap_ms : Option Int
  sim_lap_count : Int
  sim_last_lap_ms : Int
deriving DecidableEq

/-- Sim state set up by `ACUDPReader.__init__`. -/
def simInit : SimState :=
  { sim_lap_start_ms := none
    sim_target_lap_ms := none
    sim_lap_count := 0
    sim_last_lap_ms := 0 }

/-- Core of the simulated-lap update inside `_parse_car_info`
(lines 145-153), with the effective start and target times already chosen:
when `elapsed_ms` reaches the target, the lap completes, the counter
increments and a new target is drawn, otherwise nothing changes. Returns
the updated sim state and the `elapsed_ms` used as `current_time`. -/
def simRun (sim : SimState) (now_ms startMs targetMs rand2 : Int) :
    SimState × Int :=
  let elapsed := now_ms - startMs
  if targetMs ≤ elapsed then
    ({ sim_lap_start_ms := some now_ms
       sim_target_lap_ms := some rand2
       sim_lap_count := sim.sim_lap_count + 1
       sim_last_lap_ms := elapsed }, 0)
  else
    ({ sim_lap_start_ms := some startMs
       sim_target_lap_ms := some targetMs
       sim_lap_count := sim.sim_lap_count
       sim_last_lap_ms := sim.sim_last_lap_ms }, elapsed)

/-- The simulated-lap update inside `_parse_car_info` (lines 139-153): on
the first sample (no stored start time) the start time and a fresh random
target are installed (lines 140-143) before `simRun` runs. The third case
is unreachable from `__init__`: there the source would compare an int with
`None`, raising `TypeError`, which the surrounding `except` turns into a
`None` parse result. -/
def simStep (sim : SimState) (now_ms rand1 rand2 : Int) :
    Option (SimState × Int) :=
  match sim.sim_lap_start_ms, sim.sim_target_lap_ms with
  | none, _ => some (simRun sim now_ms now_ms rand1 rand2)
  | some s, some t => some (simRun sim now_ms s t rand2)
  | some _, none => none

/-- One decoded car-info sample (the dict returned by `_parse_car_info`).
Float-valued entries hold the 32-bit little-endian word of the float.
`lap_time_ms` carries `sim_last_lap_ms` (the source divides it by `1000.0`
for display only). -/
structure CarInfo where
  speed : Nat
  rpm : Nat
  max_rpm : Nat
  gear : Int
  throttle : Nat
  brake : Nat
  steer_angle : Nat
  abs : Nat
  tc : Nat
  fuel : Nat
  max_fuel : Nat
  lap_time_ms : Int
  position : Nat
  lap_count : Int
  current_time : Int
deriving DecidableEq

/-- `ACUDPReader._parse_car_info` (lines 114-178). `speed` from `data[4:8]`,
`rpm` from `data[28:32]` (`offset = 12` after `offset += 8`, so
`data[offset+16 : offset+20]`), `gear` from `data[32:36]`. The five optional
fields are decoded only when `len(data) >= 56`, otherwise they stay `0.0`.
Any unpack failure is caught and yields `None` (with the sim state
unmodified, since the sim mutation happens after all unpacks). -/
def parse_car_info (data : List Nat) (sim : SimState)
    (now_ms rand1 rand2 : Int) : Option (CarInfo × SimState) :=
  match word32At data 4, word32At data 28, word32At data 32,
        simStep sim now_ms rand1 rand2 with
  | some speedW, some rpmW, some gearW, some (sim2, elapsed) =>
    some ({ speed := speedW
            rpm := rpmW
            max_rpm := 8000
            gear := toInt32 gearW
            throttle := if 56 ≤ data.length then le32 (bytesAt data 36) else 0
            brake := if 56 ≤ data.length then le32 (bytesAt data 40) else 0
            steer_angle := if 56 ≤ data.length then le32 (bytesAt data 44) else 0
            abs := if 56 ≤ data.length then le32 (bytesAt data 48) else 0
            tc := if 56 ≤ data.length then le32 (bytesAt data 52) else 0
            fuel := 0
            max_fuel := 100
            lap_time_ms := if 0 < sim2.sim_lap_count then sim2.sim_last_lap_ms else 0
            position := 0
            lap_count := sim2.sim_lap_count
            current_time := elapsed }, sim2)
  | _, _, _, _ => none

/-- Mutable state of an `ACUDPReader` relevant to the receive loop and the
connection contract. `socket_open` tracks whether the UDP socket is open. -/
structure ReaderState where
  running : Bool
  connected : Bool
  socket_open : Bool
  latest_data : Option CarInfo
  sim : SimState
deriving DecidableEq

/-- Reader state produced by `ACUDPReader.__init__` (socket `None`,
`connected = False`, `running = False`, no sample, fresh sim state). -/
def freshReader : ReaderState :=
  { running := false
    connected := false
    socket_open := false
    latest_data := none
    sim := simInit }

/-- What `recvfrom` can yield during one iteration of `_listen`:
a 1-second timeout, some other exception, or a datagram. -/
inductive RecvEvent where
  | timeout
  | recvError
  | packet (data : List Nat)
deriving DecidableEq

/-- One iteration of the `_listen` receive loop (lines 98-112). The returned
`Bool` is whether the loop keeps running afterwards. A timeout `continue`s;
any other receive error `break`s (leaving every field of the reader state,
including `connected`, unchanged). A datagram is examined only when it is
non-empty with `len(data) > 4` (the length test subsumes non-emptiness);
only packet id `2` is decoded, and `latest_data` is assigned the parse
result — which is `None` when parsing fails. -/
def listen_step (st : ReaderState) (ev : RecvEvent)
    (now_ms rand1 rand2 : Int) : ReaderState × Bool :=
  if st.running = true then
    match ev with
    | RecvEvent.timeout => (st, true)
    | RecvEvent.recvError => (st, false)
    | RecvEvent.packet data =>
      if 4 < data.length then
        if toInt32 (le32 (bytesAt data 0)) = 2 then
          match parse_car_info data st.sim now_ms rand1 rand2 with
          | some (ci, sim2) => ({ st with latest_data := some ci, sim := sim2 }, true)
          | none => ({ st with latest_data := none }, true)
        else (st, true)
      else (st, true)
  else (st, false)

/-- `ACUDPReader.is_connected` (lines 186-187):
`self.connected and self.latest_data is not None`. -/
def is_connected (st : ReaderState) : Bool :=
  st.connected && st.latest_data.isSome

/-- `ACUDPReader.disconnect` (lines 189-192): stop the receive loop and close
the socket. -/
def disconnect (st : ReaderState) : ReaderState :=
  { st with running := false, socket_open := false }

/-!
Lap segmentation engine and session recorder: the lap-segmentation part of
`TelemetryApp.update_telemetry` (lines 1059-1088 and 1169-1178) together with
`_reset_current_lap_data`, `_store_completed_lap` and `_get_session_data`.
Per-sample values appended to the buffers (floats in the source) are carried
as opaque `Int` values: the engine never computes with them, it only stores
them. `steer_deg` carries the value the source appends
(`math.degrees(steer_angle)`), `gear` the raw integer gear.
-/

/-- The fields of one incoming sample (the dict produced by a reader) that
the lap-segmentation step reads or appends. -/
structure Sample where
  lap_count : Int
  current_time : Int
  speed : Int
  throttle : Int
  brake : Int
  steer_deg : Int
  rpm : Int
  gear : Int
  abs : Int
  tc : Int
deriving DecidableEq

/-- The nine parallel per-sample sequences of `current_lap_data` (and of each
stored lap's `data`). -/
structure LapData where
  time_ms : List Int
  speed : List Int
  throttle : List Int
  brake : List Int
  steer_deg : List Int
  rpm : List Int
  gear : List Int
  abs : List Int
  tc : List Int
deriving DecidableEq

/-- `TelemetryApp._reset_current_lap_data` (lines 984-996): all nine
sequences empty. -/
def reset_current_lap_data : LapData :=
  { time_ms := [], speed := [], throttle := [], brake := [], steer_deg := []
    rpm := [], gear := [], abs := [], tc := [] }

/-- The per-sample appends at the end of `update_telemetry`
(lines 1169-1178). -/
def appendSample (d : LapData) (s : Sample) : LapData :=
  { time_ms := d.time_ms ++ [s.current_time]
    speed := d.speed ++ [s.speed]
    throttle := d.throttle ++ [s.throttle]
    brake := d.brake ++ [s.brake]
    steer_deg := d.steer_deg ++ [s.steer_deg]
    rpm := d.rpm ++ [s.rpm]
    gear := d.gear ++ [s.gear]
    abs := d.abs ++ [s.abs]
    tc := d.tc ++ [s.tc] }

/-- One entry of `session_laps`: `{'lap_number': ..., 'data': ...}`. -/
structure SessionLap where
  lap_number : Int
  data : LapData
deriving DecidableEq

/-- The lap-segmentation state of `TelemetryApp`: `current_lap_count`,
`last_lap_time`, `session_laps`, `current_lap_data`. -/
structure AppState where
  current_lap_count : Int
  last_lap_time : Int
  session_laps : List SessionLap
  current_lap_data : LapData
deriving DecidableEq

/-- State set up by `TelemetryApp.__init__` (lines 691-697). -/
def initApp : AppState :=
  { current_lap_count := 0
    last_lap_time := 0
    session_laps := []
    current_lap_data := reset_current_lap_data }

/-- The `lap_changed` condition of `update_telemetry` (lines 1067-1071). -/
def lap_changed (st : AppState) (s : Sample) : Bool :=
  decide (st.current_lap_count < s.lap_count)
  || (decide (s.lap_count = 0) && decide (0 < st.current_lap_count))
  || (decide (s.current_time < 5000) && decide (5000 < st.last_lap_time))

/-- `TelemetryApp._store_completed_lap` (lines 998-1005): append the current
buffer tagged with the current `current_lap_count`, but only if the `speed`
sequence is non-empty (Python truthiness of the list). -/
def store_completed_lap (st : AppState) : List SessionLap :=
  if st.current_lap_data.speed = [] then st.session_laps
  else st.session_laps ++
    [{ lap_number := st.current_lap_count, data := st.current_lap_data }]

/-- The lap-segmentation core of `TelemetryApp.update_telemetry` on one
processed sample (lines 1059-1088 and 1169-1178): detect a boundary, on
boundary store the finished lap and clear the buffer, then unconditionally
update the two observed counters and append the sample's values to the
current buffer. Display-only work (labels, graphs, analysis tab) is
omitted: it reads no segmentation state other than what is modelled here
and writes none. -/
def update_telemetry (st : AppState) (s : Sample) : AppState :=
  let changed := lap_changed st s
  { current_lap_count := s.lap_count
    last_lap_time := s.current_time
    session_laps := if changed then store_completed_lap st else st.session_laps
    current_lap_data :=
      appendSample (if changed then reset_current_lap_data else st.current_lap_data) s }

/-- Processing a stream of samples in order, starting from `st`. -/
def processFrom (st : AppState) (samples : List Sample) : AppState :=
  samples.foldl update_telemetry st

/-- Number of samples of a stream on which the boundary event fires when the
stream is processed from `st`. -/
def countBoundaries : AppState → List Sample → Nat
  | _, [] => 0
  | st, s :: rest =>
    (if lap_changed st s then 1 else 0) + countBoundaries (update_telemetry st s) rest

/-- Field-wise concatenation (`combined[key].extend(...)` over all nine
keys). -/
def extendData (a b : LapData) : LapData :=
  { time_ms := a.time_ms ++ b.time_ms
    speed := a.speed ++ b.speed
    throttle := a.throttle ++ b.throttle
    brake := a.brake ++ b.brake
    steer_deg := a.steer_deg ++ b.steer_deg
    rpm := a.rpm ++ b.rpm
    gear := a.gear ++ b.gear
    abs := a.abs ++ b.abs
    tc := a.tc ++ b.tc }

/-- `TelemetryApp._get_session_data` (lines 1205-1217): start from empty
sequences, extend with each stored lap's data in order, then with the
current in-progress buffer. -/
def get_session_data (st : AppState) : LapData :=
  extendData
    (st.session_laps.foldl (fun acc lap => extendData acc lap.data)
      reset_current_lap_data)
    st.current_lap_data

/-!
Source selector: `on_game_changed` (lines 1016-1028) and `detect_game`
(lines 1030-1041).
-/

/-- The three entries of the game combo box. -/
inductive GameChoice where
  | autoDetect
  | acUDP
  | accSM
deriving DecidableEq

/-- Which reader `current_reader` refers to. -/
inductive ActiveReader where
  | noneR
  | acR
  | accR
deriving DecidableEq

/-- The selector-relevant state of `TelemetryApp`: the auto-detect flag and
the owned UDP reader (`ac_reader`, `None` until first constructed), plus
which reader is current. The shared-memory reader holds no socket. -/
structure SelectorState where
  auto_detect : Bool
  ac_reader : Option ReaderState
  current : ActiveReader
deriving DecidableEq

/-- `TelemetryApp.on_game_changed` (lines 1016-1028). The second component
is the state of the previously owned UDP reader object after the call
(`none` when none was owned): in the `'AC (UDP)'` branch it is explicitly
disconnected before a fresh reader is constructed; in the other two
branches it is left untouched (and remains the owned `ac_reader`). -/
def on_game_changed (st : SelectorState) (game : GameChoice) :
    SelectorState × Option ReaderState :=
  match game with
  | GameChoice.autoDetect =>
    ({ st with auto_detect := true, current := ActiveReader.noneR }, st.ac_reader)
  | GameChoice.acUDP =>
    ({ auto_detect := false
       ac_reader := some freshReader
       current := ActiveReader.acR }, st.ac_reader.map disconnect)
  | GameChoice.accSM =>
    ({ st with auto_detect := false, current := ActiveReader.accR }, st.ac_reader)

/-- `TelemetryApp.detect_game` (lines 1030-1041): the shared-memory reader
wins if connected (its connectivity is the external input `acc_connected`);
otherwise a UDP reader is constructed only when none is owned yet, and it is
returned only if it reports connected. -/
def detect_game (st : SelectorState) (acc_connected : Bool) :
    SelectorState × ActiveReader :=
  if acc_connected then (st, ActiveReader.accR)
  else
    let st2 :=
      match st.ac_reader with
      | none => { st with ac_reader := some freshReader }
      | some _ => st
    match st2.ac_reader with
    | some r => if is_connected r then (st2, ActiveReader.acR) else (st2, ActiveReader.noneR)
    | none => (st2, ActiveReader.noneR)

/-!
Theorems.
-/

/-- Helper: the boundary flag as a proposition. -/
theorem lap_changed_iff (st : AppState) (s : Sample) :
    lap_changed st s = true ↔
      st.current_lap_count < s.lap_count ∨
      (s.lap_count = 0 ∧ 0 < st.current_lap_count) ∨
      (s.current_time < 5000 ∧ 5000 < st.last_lap_time) := by
  simp [lap_changed, or_assoc]

/-- C1: on every processed sample, the lap-boundary event fires if and only
if the sample's `lap_count` exceeds the last observed lap count, or the
`lap_count` is `0` while the last observed count is positive, or the
sample's `current_time` is below `5000` while the last observed current lap
time is above `5000`; no other sample triggers a boundary. -/
theorem C1_lap_boundary_iff (st : AppState) (s : Sample) :
    lap_changed st s = true ↔
      st.current_lap_count < s.lap_count ∨
      (s.lap_count = 0 ∧ 0 < st.current_lap_count) ∨
      (s.current_time < 5000 ∧ 5000 < st.last_lap_time) := by
  simp [lap_changed, or_assoc]

/-- C1 witness: the boundary fires on a concrete lap-count increment. -/
theorem C1_lap_boundary_iff_witness :
    lap_changed initApp
      { lap_count := 1, current_time := 90000, speed := 100, throttle := 0
        brake := 0, steer_deg := 0, rpm := 0, gear := 3, abs := 0, tc := 0 } = true :=
  (C1_lap_boundary_iff initApp _).mpr (Or.inl (by decide))

/-- C2: on a boundary sample the buffer is stored as a lap record tagged with
the previous observed lap count and appended to the session history — unless
the buffer is empty, in which case nothing is appended — and the buffer is
cleared; on every sample (boundary or not) the sample's per-field values are
appended to the (possibly just-cleared) buffer after boundary handling, so a
boundary sample becomes the first sample of the new lap's buffer. (In
reachable states all nine sequences have equal length — claim C8 — so the
source's emptiness test on the `speed` sequence is buffer emptiness.) -/
theorem C2_boundary_handling (st : AppState) (s : Sample) :
    (update_telemetry st s).session_laps =
      (if lap_changed st s = true ∧ st.current_lap_data.speed ≠ [] then
        st.session_laps ++
          [{ lap_number := st.current_lap_count, data := st.current_lap_data }]
      else st.session_laps) ∧
    (update_telemetry st s).current_lap_data =
      appendSample
        (if lap_changed st s = true then reset_current_lap_data
         else st.current_lap_data) s := by
  constructor
  · simp only [update_telemetry, store_completed_lap]
    by_cases hch : lap_changed st s = true <;>
      by_cases hsp : st.current_lap_data.speed = [] <;>
      simp [hch, hsp]
  · rfl

/-- Concrete sample stream for the C3 scenario: `lap_count` sequence
`[0,0,0,1,1,2]`, non-trivial speeds, `current_time` values that never
trigger the time-based restart condition. -/
def c3samples : List Sample :=
  [ { lap_count := 0, current_time := 1000, speed := 100, throttle := 10
      brake := 0, steer_deg := 1, rpm := 5000, gear := 3, abs := 0, tc := 0 }
  , { lap_count := 0, current_time := 2000, speed := 110, throttle := 20
      brake := 0, steer_deg := 2, rpm := 5100, gear := 3, abs := 0, tc := 0 }
  , { lap_count := 0, current_time := 3000, speed := 120, throttle := 30
      brake := 0, steer_deg := 3, rpm := 5200, gear := 4, abs := 0, tc := 0 }
  , { lap_count := 1, current_time := 4000, speed := 130, throttle := 40
      brake := 5, steer_deg := 4, rpm := 5300, gear := 4, abs := 0, tc := 0 }
  , { lap_count := 1, current_time := 4500, speed := 140, throttle := 50
      brake := 0, steer_deg := 5, rpm := 5400, gear := 5, abs := 0, tc := 0 }
  , { lap_count := 2, current_time := 4800, speed := 150, throttle := 60
      brake := 0, steer_deg := 6, rpm := 5500, gear := 5, abs := 0, tc := 0 } ]

/-- C3 counterexample: feeding the engine, from its initial state, the six
samples with `lap_count` values `[0,0,0,1,1,2]` yields two stored laps whose
sample counts are `3` and `2` — not `3` and `3` as the claim states: the
sample that triggers a boundary starts the next lap's buffer, so lap `1`
holds only the two samples with `lap_count = 1`. -/
theorem C3_counterexample :
    ((processFrom initApp c3samples).session_laps.map
        (fun l => (l.lap_number, l.data.speed.length))) = [(0, 3), (1, 2)] ∧
    ((processFrom initApp c3samples).session_laps.map
        (fun l => l.data.speed.length)) ≠ [3, 3] := by
  decide

/-- C3 as amended: the scenario yields exactly two completed lap records,
tagged with lap numbers `0` and `1`, containing `3` and `2` samples
respectively, and leaves a current-lap buffer of `1` sample with the
observed lap count at `2`. -/
theorem C3_scenario_amended :
    (processFrom initApp c3samples).session_laps.length = 2 ∧
    ((processFrom initApp c3samples).session_laps.map (fun l => l.lap_number)) = [0, 1] ∧
    ((processFrom initApp c3samples).session_laps.map
        (fun l => l.data.speed.length)) = [3, 2] ∧
    (processFrom initApp c3samples).current_lap_data.speed.length = 1 ∧
    (processFrom initApp c3samples).current_lap_count = 2 := by
  decide

/-- Helper: a field projection commuting with `extendData` distributes over
the fold that builds the combined session data. -/
theorem foldl_extend_field (f : LapData → List Int)
    (hf : ∀ a b, f (extendData a b) = f a ++ f b) :
    ∀ (laps : List SessionLap) (acc : LapData),
      f (laps.foldl (fun a l => extendData a l.data) acc) =
        f acc ++ (laps.map (fun l => f l.data)).flatten := by
  intro laps
  induction laps with
  | nil => intro acc; simp
  | cons lap rest ih =>
    intro acc
    simp only [List.foldl_cons, List.map_cons, List.flatten_cons]
    rw [ih, hf, List.append_assoc]

/-- Helper: the combined session data of one field is the stored laps'
sequences joined in order followed by the in-progress buffer. -/
theorem get_session_data_field (st : AppState) (f : LapData → List Int)
    (hf : ∀ a b, f (extendData a b) = f a ++ f b)
    (h0 : f reset_current_lap_data = []) :
    f (get_session_data st) =
      (st.session_laps.map (fun l => f l.data)).flatten ++ f st.current_lap_data := by
  show f (extendData _ _) = _
  rw [hf, foldl_extend_field f hf, h0, List.nil_append]

/-- Helper: length form of `get_session_data_field`. -/
theorem get_session_data_field_len (st : AppState) (f : LapData → List Int)
    (hf : ∀ a b, f (extendData a b) = f a ++ f b)
    (h0 : f reset_current_lap_data = []) :
    (f (get_session_data st)).length =
      (st.session_laps.map (fun l => (f l.data).length)).sum +
        (f st.current_lap_data).length := by
  rw [get_session_data_field st f hf h0]
  simp [List.length_flatten, Function.comp_def]

/-- C7: for every one of the nine per-sample fields and at every point in
time (every state), the full-session view is the stored laps' sequences
concatenated in storage order followed by the in-progress buffer, so its
length is the sum of the stored laps' sequence lengths plus the buffer
length. -/
theorem C7_full_session (st : AppState) :
    ((get_session_data st).time_ms =
        (st.session_laps.map (fun l => l.data.time_ms)).flatten ++ st.current_lap_data.time_ms ∧
      (get_session_data st).speed =
        (st.session_laps.map (fun l => l.data.speed)).flatten ++ st.current_lap_data.speed ∧
      (get_session_data st).throttle =
        (st.session_laps.map (fun l => l.data.throttle)).flatten ++ st.current_lap_data.throttle ∧
      (get_session_data st).brake =
        (st.session_laps.map (fun l => l.data.brake)).flatten ++ st.current_lap_data.brake ∧
      (get_session_data st).steer_deg =
        (st.session_laps.map (fun l => l.data.steer_deg)).flatten ++ st.current_lap_data.steer_deg ∧
      (get_session_data st).rpm =
        (st.session_laps.map (fun l => l.data.rpm)).flatten ++ st.current_lap_data.rpm ∧
      (get_session_data st).gear =
        (st.session_laps.map (fun l => l.data.gear)).flatten ++ st.current_lap_data.gear ∧
      (get_session_data st).abs =
        (st.session_laps.map (fun l => l.data.abs)).flatten ++ st.current_lap_data.abs ∧
      (get_session_data st).tc =
        (st.session_laps.map (fun l => l.data.tc)).flatten ++ st.current_lap_data.tc) ∧
    ((get_session_data st).time_ms.length =
        (st.session_laps.map (fun l => l.data.time_ms.length)).sum +
          st.current_lap_data.time_ms.length ∧
      (get_session_data st).speed.length =
        (st.session_laps.map (fun l => l.data.speed.length)).sum +
          st.current_lap_data.speed.length ∧
      (get_session_data st).throttle.length =
        (st.session_laps.map (fun l => l.data.throttle.length)).sum +
          st.current_lap_data.throttle.length ∧
      (get_session_data st).brake.length =
        (st.session_laps.map (fun l => l.data.brake.length)).sum +
          st.current_lap_data.brake.length ∧
      (get_session_data st).steer_deg.length =
        (st.session_laps.map (fun l => l.data.steer_deg.length)).sum +
          st.current_lap_data.steer_deg.length ∧
      (get_session_data st).rpm.length =
        (st.session_laps.map (fun l => l.data.rpm.length)).sum +
          st.current_lap_data.rpm.length ∧
      (get_session_data st).gear.length =
        (st.session_laps.map (fun l => l.data.gear.length)).sum +
          st.current_lap_data.gear.length ∧
      (get_session_data st).abs.length =
        (st.session_laps.map (fun l => l.data.abs.length)).sum +
          st.current_lap_data.abs.length ∧
      (get_session_data st).tc.length =
        (st.session_laps.map (fun l => l.data.tc.length)).sum +
          st.current_lap_data.tc.length) := by
  refine ⟨⟨?_, ?_, ?_, ?_, ?_, ?_, ?_, ?_, ?_⟩, ⟨?_, ?_, ?_, ?_, ?_, ?_, ?_, ?_, ?_⟩⟩ <;>
    first
      | exact get_session_data_field st _ (fun a b => rfl) rfl
      | exact get_session_data_field_len st _ (fun a b => rfl) rfl

/-- All nine sequences of a lap-data record have equal length. -/
def dataLensEq (d : LapData) : Bool :=
  decide (d.speed.length = d.time_ms.length) &&
  decide (d.throttle.length = d.time_ms.length) &&
  decide (d.brake.length = d.time_ms.length) &&
  decide (d.steer_deg.length = d.time_ms.length) &&
  decide (d.rpm.length = d.time_ms.length) &&
  decide (d.gear.length = d.time_ms.length) &&
  decide (d.abs.length = d.time_ms.length) &&
  decide (d.tc.length = d.time_ms.length)

/-- Invariant: equal-length sequences in the current buffer and in every
stored lap record. -/
def sessionInv (st : AppState) : Bool :=
  dataLensEq st.current_lap_data &&
    st.session_laps.all (fun l => dataLensEq l.data)

/-- Helper: appending one sample preserves equal sequence lengths. -/
theorem dataLensEq_appendSample (d : LapData) (s : Sample)
    (h : dataLensEq d = true) : dataLensEq (appendSample d s) = true := by
  simp only [dataLensEq, Bool.and_eq_true, decide_eq_true_eq] at h ⊢
  simp only [appendSample, List.length_append, List.length_cons, List.length_nil]
  omega

/-- Helper: one `update_telemetry` step preserves the invariant. -/
theorem sessionInv_step (st : AppState) (s : Sample)
    (h : sessionInv st = true) : sessionInv (update_telemetry st s) = true := by
  simp only [sessionInv, Bool.and_eq_true] at h
  simp only [update_telemetry, sessionInv, Bool.and_eq_true]
  refine ⟨?_, ?_⟩
  · split
    · exact dataLensEq_appendSample _ s (by decide)
    · exact dataLensEq_appendSample _ s h.1
  · split
    · simp only [store_completed_lap]
      split
      · exact h.2
      · simp [List.all_append, h.1, h.2]
    · exact h.2

/-- Helper: the invariant holds along any processed stream. -/
theorem sessionInv_processFrom (samples : List Sample) :
    ∀ st : AppState, sessionInv st = true →
      sessionInv (processFrom st samples) = true := by
  induction samples with
  | nil => intro st h; exact h
  | cons s rest ih =>
    intro st h
    exact ih (update_telemetry st s) (sessionInv_step st s h)

/-- C8: after any sequence of processed samples, the nine per-sample
sequences of the current buffer all have equal length, every stored lap
record has equal-length sequences, and each step only appends to the stored
history (records, once stored, are never altered or removed, i.e. frozen). -/
theorem C8_equal_lengths_invariant :
    (∀ samples : List Sample,
      sessionInv (processFrom initApp samples) = true) ∧
    (∀ (st : AppState) (s : Sample),
      ∃ tail, (update_telemetry st s).session_laps = st.session_laps ++ tail) := by
  constructor
  · intro samples
    exact sessionInv_processFrom samples initApp (by decide)
  · intro st s
    simp only [update_telemetry]
    split
    · simp only [store_completed_lap]
      split
      · exact ⟨[], by simp⟩
      · exact ⟨_, rfl⟩
    · exact ⟨[], by simp⟩

/-- Helper: a sample whose `lap_count` matches the observed count fires no
boundary unless the time-based condition holds. -/
theorem lap_changed_eq_false (st : AppState) (s : Sample)
    (h1 : s.lap_count = st.current_lap_count)
    (h2 : ¬ 5000 < st.last_lap_time) : lap_changed st s = false := by
  cases hb : lap_changed st s with
  | false => rfl
  | true =>
    rcases (lap_changed_iff st s).mp hb with h | h | h
    · omega
    · omega
    · exact absurd h.2 h2

/-- Helper: with the observed lap time already below the threshold and a
stream of samples that keep the lap count fixed and the lap time below
`5000`, no boundary ever fires. -/
theorem countBoundaries_zero (samples : List Sample) :
    ∀ st : AppState, ¬ 5000 < st.last_lap_time →
      (∀ s ∈ samples, s.lap_count = st.current_lap_count ∧ s.current_time < 5000) →
      countBoundaries st samples = 0 := by
  induction samples with
  | nil => intro st _ _; rfl
  | cons s rest ih =>
    intro st hlt hall
    have hs := hall s (List.mem_cons_self s rest)
    have hfalse : lap_changed st s = false := lap_changed_eq_false st s hs.1 hlt
    have hcount : (update_telemetry st s).current_lap_count = st.current_lap_count := by
      simp [update_telemetry, hs.1]
    have hrest : ∀ x ∈ rest,
        x.lap_count = (update_telemetry st s).current_lap_count ∧ x.current_time < 5000 := by
      intro x hx
      rw [hcount]
      exact hall x (List.mem_cons_of_mem s hx)
    have htime : ¬ 5000 < (update_telemetry st s).last_lap_time := by
      simp only [update_telemetry]
      omega
    simp [countBoundaries, hfalse, ih (update_telemetry st s) htime hrest]

/-- C10: on every processed sample — boundary or not — the two observed
counters are overwritten with that sample's `lap_count` and `current_time`;
consequently, for a stream whose first sample drops the current lap time
below `5000` (from an observed value above `5000`) and whose samples then
keep it below `5000` with the lap count unchanged, exactly one boundary
event fires. -/
theorem C10_counters_every_sample :
    (∀ (st : AppState) (s : Sample),
      (update_telemetry st s).current_lap_count = s.lap_count ∧
      (update_telemetry st s).last_lap_time = s.current_time) ∧
    (∀ (st : AppState) (samples : List Sample),
      5000 < st.last_lap_time →
      (∀ s ∈ samples, s.lap_count = st.current_lap_count ∧ s.current_time < 5000) →
      samples ≠ [] →
      countBoundaries st samples = 1) := by
  constructor
  · intro st s
    exact ⟨rfl, rfl⟩
  · intro st samples hgt hall hne
    match samples, hne with
    | s :: rest, _ =>
      have hs := hall s (List.mem_cons_self s rest)
      have htrue : lap_changed st s = true :=
        (lap_changed_iff st s).mpr (Or.inr (Or.inr ⟨hs.2, hgt⟩))
      have hcount : (update_telemetry st s).current_lap_count = st.current_lap_count := by
        simp [update_telemetry, hs.1]
      have hrest : ∀ x ∈ rest,
          x.lap_count = (update_telemetry st s).current_lap_count ∧ x.current_time < 5000 := by
        intro x hx
        rw [hcount]
        exact hall x (List.mem_cons_of_mem s hx)
      have htime : ¬ 5000 < (update_telemetry st s).last_lap_time := by
        simp only [update_telemetry]
        omega
      simp only [countBoundaries, htrue, if_true,
        countBoundaries_zero rest (update_telemetry st s) htime hrest]

/-- C10 witness: a concrete two-sample stream in which the lap time drops
below `5000` once and stays there fires exactly one boundary. -/
theorem C10_counters_every_sample_witness :
    5000 < ({ current_lap_count := 3, last_lap_time := 6000, session_laps := []
              current_lap_data := reset_current_lap_data } : AppState).last_lap_time ∧
    countBoundaries
      { current_lap_count := 3, last_lap_time := 6000, session_laps := []
        current_lap_data := reset_current_lap_data }
      [ { lap_count := 3, current_time := 1000, speed := 100, throttle := 0
          brake := 0, steer_deg := 0, rpm := 0, gear := 3, abs := 0, tc := 0 }
      , { lap_count := 3, current_time := 2000, speed := 101, throttle := 0
          brake := 0, steer_deg := 0, rpm := 0, gear := 3, abs := 0, tc := 0 } ] = 1 :=
  ⟨by decide,
    C10_counters_every_sample.2 _ _ (by decide) (by decide) (by decide)⟩

/-- A tag-2 datagram of eight bytes: long enough to pass the `len(data) > 4`
gate of `_listen` but too short for the `rpm` unpack at `data[28:32]`. -/
def c4short : List Nat := [2, 0, 0, 0, 0, 0, 0, 0]

/-- C4 counterexample: a concrete inbound datagram whose first four bytes
decode to the tag `2` and which is not ignored by the receive loop, yet for
which the decoder produces no sample at all (`_parse_car_info` returns
`None`): the claim's universal statement over every tag-2 datagram fails on
datagrams shorter than 36 bytes. -/
theorem C4_counterexample :
    toInt32 (le32 (bytesAt c4short 0)) = 2 ∧
    4 < c4short.length ∧
    parse_car_info c4short simInit 0 81000 82000 = none := by
  decide

/-- C4 as amended: for every inbound tag-2 datagram of length at least 36
(shorter tag-2 datagrams fail to decode and produce no sample), the decoder
produces a sample whose `speed` is the little-endian 32-bit float word at
byte offset 4, `rpm` the word at offset 28, `gear` the signed int32 at
offset 32, and `max_rpm` the constant `8000`; if and only if the datagram
is at least 56 bytes long, `throttle`/`brake`/`steer_angle`/`abs`/`tc` are
the float words at offsets 36/40/44/48/52, and otherwise those five fields
are `0` (the word of the float `0.0`); datagrams with any other tag are
ignored. (The sim-state hypothesis excludes only the state unreachable from
`__init__` in which the source would raise `TypeError`.) -/
theorem C4_decode_amended :
    (∀ (data : List Nat) (st : ReaderState) (now_ms rand1 rand2 : Int),
      st.running = true →
      toInt32 (le32 (bytesAt data 0)) = 2 →
      36 ≤ data.length →
      (st.sim.sim_lap_start_ms.isNone || st.sim.sim_target_lap_ms.isSome) = true →
      ∃ (ci : CarInfo) (sim2 : SimState),
        parse_car_info data st.sim now_ms rand1 rand2 = some (ci, sim2) ∧
        listen_step st (RecvEvent.packet data) now_ms rand1 rand2 =
          ({ st with latest_data := some ci, sim := sim2 }, true) ∧
        ci.speed = le32 (bytesAt data 4) ∧
        ci.rpm = le32 (bytesAt data 28) ∧
        ci.gear = toInt32 (le32 (bytesAt data 32)) ∧
        ci.max_rpm = 8000 ∧
        (56 ≤ data.length →
          ci.throttle = le32 (bytesAt data 36) ∧
          ci.brake = le32 (bytesAt data 40) ∧
          ci.steer_angle = le32 (bytesAt data 44) ∧
          ci.abs = le32 (bytesAt data 48) ∧
          ci.tc = le32 (bytesAt data 52)) ∧
        (data.length < 56 →
          ci.throttle = 0 ∧ ci.brake = 0 ∧ ci.steer_angle = 0 ∧
          ci.abs = 0 ∧ ci.tc = 0)) ∧
    (∀ (st : ReaderState) (data : List Nat) (now_ms rand1 rand2 : Int),
      st.running = true →
      ¬ toInt32 (le32 (bytesAt data 0)) = 2 →
      listen_step st (RecvEvent.packet data) now_ms rand1 rand2 = (st, true)) := by
  constructor
  · intro data st now_ms rand1 rand2 hrun htag hlen hsim
    have h4 : word32At data 4 = some (le32 (bytesAt data 4)) := by
      unfold word32At
      rw [if_pos (by omega : 4 + 4 ≤ data.length)]
    have h28 : word32At data 28 = some (le32 (bytesAt data 28)) := by
      unfold word32At
      rw [if_pos (by omega : 28 + 4 ≤ data.length)]
    have h32 : word32At data 32 = some (le32 (bytesAt data 32)) := by
      unfold word32At
      rw [if_pos (by omega : 32 + 4 ≤ data.length)]
    have hss : (simStep st.sim now_ms rand1 rand2).isSome = true := by
      unfold simStep
      cases hstart : st.sim.sim_lap_start_ms with
      | none => rfl
      | some s0 =>
        cases htgt : st.sim.sim_target_lap_ms with
        | none => rw [hstart, htgt] at hsim; simp at hsim
        | some t0 => rfl
    obtain ⟨⟨sim2, elapsed⟩, hpair⟩ := Option.isSome_iff_exists.mp hss
    have hparse : parse_car_info data st.sim now_ms rand1 rand2 =
        some ({ speed := le32 (bytesAt data 4)
                rpm := le32 (bytesAt data 28)
                max_rpm := 8000
                gear := toInt32 (le32 (bytesAt data 32))
                throttle := if 56 ≤ data.length then le32 (bytesAt data 36) else 0
                brake := if 56 ≤ data.length then le32 (bytesAt data 40) else 0
                steer_angle := if 56 ≤ data.length then le32 (bytesAt data 44) else 0
                abs := if 56 ≤ data.length then le32 (bytesAt data 48) else 0
                tc := if 56 ≤ data.length then le32 (bytesAt data 52) else 0
                fuel := 0
                max_fuel := 100
                lap_time_ms := if 0 < sim2.sim_lap_count then sim2.sim_last_lap_ms else 0
                position := 0
                lap_count := sim2.sim_lap_count
                current_time := elapsed }, sim2) := by
      unfold parse_car_info
      rw [h4, h28, h32, hpair]
    refine ⟨_, sim2, hparse, ?_, rfl, rfl, rfl, rfl, ?_, ?_⟩
    · simp only [listen_step, hrun, if_true]
      rw [if_pos (by omega : 4 < data.length), if_pos htag, hparse]
    · intro h56
      simp only [if_pos h56]
      exact ⟨trivial, trivial, trivial, trivial, trivial⟩
    · intro h56
      have hno : ¬ 56 ≤ data.length := by omega
      simp only [if_neg hno]
      exact ⟨trivial, trivial, trivial, trivial, trivial⟩
  · intro st data now_ms rand1 rand2 hrun htag
    by_cases hlen : 4 < data.length <;>
      simp [listen_step, hrun, hlen, htag]

/-- A well-formed 56-byte tag-2 datagram. -/
def c4full : List Nat := [2, 0, 0, 0] ++ List.replicate 52 7

/-- A running, connected reader with no sample yet. -/
def runningReader : ReaderState :=
  { running := true
    connected := true
    socket_open := true
    latest_data := none
    sim := simInit }

/-- C4 witness: the amended theorem applies to a concrete 56-byte tag-2
datagram and yields a decoded sample. -/
theorem C4_decode_amended_witness :
    36 ≤ c4full.length ∧
    (parse_car_info c4full runningReader.sim 0 81000 82000).isSome = true := by
  refine ⟨by decide, ?_⟩
  obtain ⟨ci, sim2, hp, -⟩ :=
    C4_decode_amended.1 c4full runningReader 0 81000 82000 rfl (by decide)
      (by decide) (by decide)
  rw [hp]
  rfl

/-- An arbitrary previously decoded sample held in `latest_data`. -/
def someSample : CarInfo :=
  { speed := 17, rpm := 23, max_rpm := 8000, gear := 3, throttle := 5
    brake := 0, steer_angle := 1, abs := 0, tc := 0, fuel := 0, max_fuel := 100
    lap_time_ms := 0, position := 0, lap_count := 0, current_time := 1000 }

/-- A running reader that already holds a decoded sample. -/
def readerWithSample : ReaderState :=
  { running := true
    connected := true
    socket_open := true
    latest_data := some someSample
    sim := simInit }

/-- A five-byte tag-2 datagram: it passes the `len(data) > 4` gate but the
`speed` unpack at `data[4:8]` fails. -/
def c5short : List Nat := [2, 0, 0, 0, 0]

/-- C5 counterexample: on a concrete malformed tag-2 packet whose decoding
fails, `latest_data` does NOT keep the value it had before the packet
arrived — `self.latest_data = self._parse_car_info(data)` overwrites it
with `None`. -/
theorem C5_counterexample :
    toInt32 (le32 (bytesAt c5short 0)) = 2 ∧
    parse_car_info c5short readerWithSample.sim 0 81000 82000 = none ∧
    readerWithSample.latest_data = some someSample ∧
    (listen_step readerWithSample (RecvEvent.packet c5short) 0 81000 82000).1.latest_data
      = none := by
  decide

/-- C5 as amended: for every malformed or short tag-2 packet (one whose
decoding fails) received while the loop is running, the packet yields no
sample, `latest_data` is overwritten with `None` (the previous sample is
lost, it is not kept), every other reader field is unchanged, and no
exception propagates out of the receive loop (the loop continues). -/
theorem C5_decode_failure_amended (st : ReaderState) (data : List Nat)
    (now_ms rand1 rand2 : Int)
    (hrun : st.running = true)
    (hlen : 4 < data.length)
    (htag : toInt32 (le32 (bytesAt data 0)) = 2)
    (hfail : parse_car_info data st.sim now_ms rand1 rand2 = none) :
    listen_step st (RecvEvent.packet data) now_ms rand1 rand2 =
      ({ st with latest_data := none }, true) := by
  simp only [listen_step, hrun, if_true]
  rw [if_pos hlen, if_pos htag, hfail]

/-- C5 witness: the amended theorem applied to the concrete short packet. -/
theorem C5_decode_failure_amended_witness :
    readerWithSample.running = true ∧
    parse_car_info c5short readerWithSample.sim 0 81000 82000 = none ∧
    listen_step readerWithSample (RecvEvent.packet c5short) 0 81000 82000 =
      ({ readerWithSample with latest_data := none }, true) :=
  ⟨rfl, by decide,
    C5_decode_failure_amended readerWithSample c5short 0 81000 82000 rfl
      (by decide) (by decide) (by decide)⟩

/-- C6 counterexample: in a concrete running, connected reader state that
holds a sample, a non-timeout receive error terminates the loop, yet
`is_connected` still returns `true` afterwards — the error path (`break`)
never clears the `connected` flag, so the source does not revert to
disconnected. -/
theorem C6_counterexample :
    (listen_step readerWithSample RecvEvent.recvError 0 0 0).2 = false ∧
    is_connected (listen_step readerWithSample RecvEvent.recvError 0 0 0).1 = true := by
  decide

/-- C6 as amended: while the loop is running, a socket timeout causes a
re-poll (the loop continues with the reader state unchanged), and any other
receive error terminates the loop ALSO with the reader state unchanged: the
`connected` flag is not reverted, so `is_connected` keeps whatever value it
had before the error. -/
theorem C6_recv_error_amended (st : ReaderState) (now_ms rand1 rand2 : Int)
    (hrun : st.running = true) :
    listen_step st RecvEvent.timeout now_ms rand1 rand2 = (st, true) ∧
    listen_step st RecvEvent.recvError now_ms rand1 rand2 = (st, false) ∧
    is_connected (listen_step st RecvEvent.recvError now_ms rand1 rand2).1 =
      is_connected st := by
  simp [listen_step, hrun]

/-- C6 witness: the amended theorem applied to the concrete running
reader. -/
theorem C6_recv_error_amended_witness :
    readerWithSample.running = true ∧
    listen_step readerWithSample RecvEvent.timeout 0 0 0 = (readerWithSample, true) ∧
    listen_step readerWithSample RecvEvent.recvError 0 0 0 = (readerWithSample, false) ∧
    is_connected (listen_step readerWithSample RecvEvent.recvError 0 0 0).1 =
      is_connected readerWithSample :=
  ⟨rfl, C6_recv_error_amended readerWithSample 0 0 0 rfl⟩

/-- A selector state that owns a running, connected UDP reader. -/
def selectorWithAC : SelectorState :=
  { auto_detect := false
    ac_reader := some readerWithSample
    current := ActiveReader.acR }

/-- C9 counterexample: reconfiguring the selection from the fixed UDP source
to the shared-memory source leaves the previously owned UDP reader with its
receive loop still running and its socket still open — it is not
disconnected, contradicting the claim that EVERY reconfiguration
disconnects the previously owned UDP source. (The same holds for switching
to auto-detect.) -/
theorem C9_counterexample :
    selectorWithAC.ac_reader = some readerWithSample ∧
    (on_game_changed selectorWithAC GameChoice.accSM).2 = some readerWithSample ∧
    readerWithSample.running = true ∧
    readerWithSample.socket_open = true ∧
    (on_game_changed selectorWithAC GameChoice.autoDetect).2 = some readerWithSample := by
  decide

/-- C9 as amended: only the reconfiguration that selects the fixed AC-UDP
source disconnects the previously owned UDP reader (receive loop stopped,
socket closed) before constructing the fresh reader; switching to
auto-detect or to the shared-memory source leaves the previously owned UDP
reader untouched but still owned; and auto-detect constructs a new UDP
reader only when none is owned — so no reconfiguration leaves a UDP reader
unowned, but not every reconfiguration disconnects it. -/
theorem C9_reconfiguration_amended :
    (∀ (st : SelectorState) (r : ReaderState), st.ac_reader = some r →
      (on_game_changed st GameChoice.acUDP).2 = some (disconnect r) ∧
      (disconnect r).running = false ∧
      (disconnect r).socket_open = false ∧
      (on_game_changed st GameChoice.acUDP).1.ac_reader = some freshReader) ∧
    (∀ st : SelectorState,
      (on_game_changed st GameChoice.autoDetect).1.ac_reader = st.ac_reader ∧
      (on_game_changed st GameChoice.accSM).1.ac_reader = st.ac_reader) ∧
    (∀ (st : SelectorState) (acc_connected : Bool) (r : ReaderState),
      st.ac_reader = some r →
      (detect_game st acc_connected).1.ac_reader = some r) := by
  refine ⟨?_, ?_, ?_⟩
  · intro st r hr
    simp [on_game_changed, hr, disconnect]
  · intro st
    exact ⟨rfl, rfl⟩
  · intro st acc_connected r hr
    cases acc_connected with
    | true => simpa [detect_game] using hr
    | false =>
      simp only [detect_game, hr, Bool.false_eq_true, if_false]
      split <;> exact hr

/-- C9 witness: the amended theorem applied to the concrete selector state
owning a running reader. -/
theorem C9_reconfiguration_amended_witness :
    selectorWithAC.ac_reader = some readerWithSample ∧
    ((on_game_changed selectorWithAC GameChoice.acUDP).2 =
        some (disconnect readerWithSample) ∧
      (disconnect readerWithSample).running = false ∧
      (disconnect readerWithSample).socket_open = false ∧
      (on_game_changed selectorWithAC GameChoice.acUDP).1.ac_reader =
        some freshReader) :=
  ⟨rfl, C9_reconfiguration_amended.1 selectorWithAC readerWithSample rfl⟩

end ACCTelemetry
